import Mathlib

/-!
Verification of the FracSim analytical fracture-propagation engine.

The definitions below are a shallow embedding of the TypeScript module
`fractureService` (PKN / KGD / Radial solvers, regime classifier, history
and profile generators, sensitivity analyzer) together with the dispatch
in `App.tsx`.  JavaScript floating-point numbers are modelled as real
numbers; `Math.pow` with a fractional exponent becomes `Real.rpow`,
`Math.sqrt` becomes `Real.sqrt`, `Math.PI` becomes `Real.pi`.
-/

noncomputable section

open Real

/-- The record of physical inputs (`FracInputs` in `types.ts`). -/
structure FracInputs where
  E : ℝ
  nu : ℝ
  sigma_min : ℝ
  CL : ℝ
  mu : ℝ
  q : ℝ
  H : ℝ
  K_IC : ℝ
  time : ℝ
  p_limit : ℝ
  depth : ℝ

/-- The model selector (`ModelType` in `types.ts`). -/
inductive ModelType where
  | PKN
  | KGD
  | RADIAL
deriving DecidableEq

/-- The regime label (`'Viscosity' | 'Toughness' | 'Leakoff-Dominated'` in `types.ts`). -/
inductive Regime where
  | Viscosity
  | Toughness
  | LeakoffDominated
deriving DecidableEq

/-- One sampled time step (`TimeStep` in `types.ts`). -/
structure TimeStep where
  time : ℝ
  length : ℝ
  width : ℝ
  pressure : ℝ
deriving DecidableEq

/-- One sampled profile point (`ProfilePoint` in `types.ts`). -/
structure ProfilePoint where
  position : ℝ
  width : ℝ
deriving DecidableEq

/-- The output of one per-instant solver evaluation: the record
`{ L, p, w }` returned by `solvePKN` / `solveKGD` / `solveRadial`. -/
structure SolveOut where
  L : ℝ
  p : ℝ
  w : ℝ

/-- The result of one solver invocation (`ModelResult` in `types.ts`). -/
structure ModelResult where
  type : ModelType
  length : ℝ
  width_avg : ℝ
  width_max : ℝ
  p_net : ℝ
  p_well : ℝ
  efficiency : ℝ
  volume_injected : ℝ
  volume_leakoff : ℝ
  regime : Regime
  warnings : List String
  timeSeries : List TimeStep
  profile : List ProfilePoint

/-- One row of the sensitivity table (`SensitivityData` in `types.ts`);
the `parameter` field holds the perturbed input key. -/
inductive ParamKey where
  | mu
  | q
  | sigma_min
  | CL
deriving DecidableEq

/-- A sensitivity row (`SensitivityData` in `types.ts`). -/
structure SensitivityData where
  parameter : ParamKey
  factor : ℝ
  L_change : ℝ
  w_change : ℝ
  p_change : ℝ

/-- Plane-strain modulus: `getEPrime` in the source, `E / (1 - nu^2)`. -/
def getEPrime (E nu : ℝ) : ℝ := E / (1 - nu ^ 2)

/-- Regime classifier `checkRegime`: threshold on `K_IC / (mu * q * 1e6)`.
The `type`, `E_prime`, `R_or_L` and `H` arguments are accepted but unused,
exactly as in the source. -/
def checkRegime (_type : ModelType) (_E_prime mu q K_IC _R_or_L _H : ℝ) : Regime :=
  if K_IC / (mu * q * 1e6) > 100 then Regime.Toughness else Regime.Viscosity

/-- `generateHistory`: 50 samples of the closed-form solution at times
`(totalTime/50)*i` for `i = 1..50` (the loop `for i = 1; i <= 50`). -/
def generateHistory (totalTime : ℝ) (calcAtTime : ℝ → SolveOut) : List TimeStep :=
  (List.range 50).map (fun (j : ℕ) =>
    let t := totalTime / 50 * ((j : ℝ) + 1)
    let res := calcAtTime t
    { time := t, length := res.L, width := res.w, pressure := res.p })

/-- `generateProfile`: 51 samples of the power-law width shape at positions
`(L/50)*i` for `i = 0..50` (the loop `for i = 0; i <= 50`). -/
def generateProfile (L w_max shapeExponent : ℝ) : List ProfilePoint :=
  (List.range 51).map (fun (i : ℕ) =>
    let x := L / 50 * (i : ℝ)
    let x_norm := x / L
    let w := w_max * (1 - x_norm) ^ shapeExponent
    { position := x, width := w })

/-- PKN no-leakoff asymptote: `0.68 * ((q^3 * Ep) / (mu * H^4))^0.2 * t^0.8`. -/
def PKN_L_no_leakoff (I : FracInputs) (t : ℝ) : ℝ :=
  0.68 * ((I.q ^ 3 * getEPrime I.E I.nu) / (I.mu * I.H ^ 4)) ^ (0.2 : ℝ) * t ^ (0.8 : ℝ)

/-- PKN high-leakoff asymptote: `q * sqrt t / (2 * pi * CL * H)`. -/
def PKN_L_high_leakoff (I : FracInputs) (t : ℝ) : ℝ :=
  I.q * Real.sqrt t / (2 * Real.pi * I.CL * I.H)

/-- The inner `solvePKN` closure: harmonic matching of the two asymptotes,
then the PKN net-pressure and maximum-width closure relations. -/
def solvePKN (I : FracInputs) (t : ℝ) : SolveOut :=
  let L := 1 / (1 / PKN_L_no_leakoff I t + 1 / PKN_L_high_leakoff I t)
  let p_net := 2.5 * ((I.mu * I.q * L) / I.H ^ 4) ^ (0.25 : ℝ) * getEPrime I.E I.nu ^ (0.75 : ℝ)
  let w_max := 3 * p_net * I.H / getEPrime I.E I.nu
  { L := L, p := p_net, w := w_max }

/-- KGD no-leakoff asymptote: `0.48 * ((Ep * q^3) / (mu * H^3))^(1/6) * t^(2/3)`. -/
def KGD_L_no_leakoff (I : FracInputs) (t : ℝ) : ℝ :=
  0.48 * ((getEPrime I.E I.nu * I.q ^ 3) / (I.mu * I.H ^ 3)) ^ ((1 : ℝ) / 6) * t ^ ((2 : ℝ) / 3)

/-- KGD high-leakoff asymptote: `q * sqrt t / (2 * pi * CL * H)`. -/
def KGD_L_high_leakoff (I : FracInputs) (t : ℝ) : ℝ :=
  I.q * Real.sqrt t / (2 * Real.pi * I.CL * I.H)

/-- The inner `solveKGD` closure. -/
def solveKGD (I : FracInputs) (t : ℝ) : SolveOut :=
  let L := 1 / (1 / KGD_L_no_leakoff I t + 1 / KGD_L_high_leakoff I t)
  let w_max := 1.32 * ((I.mu * I.q * L ^ 2) / (getEPrime I.E I.nu * I.H)) ^ (0.25 : ℝ)
  let p_net := getEPrime I.E I.nu * w_max / (4 * L)
  { L := L, p := p_net, w := w_max }

/-- Radial no-leakoff asymptote: `0.52 * ((Ep * q^3) / mu)^(1/9) * t^(4/9)`. -/
def Radial_R_no_leakoff (I : FracInputs) (t : ℝ) : ℝ :=
  0.52 * ((getEPrime I.E I.nu * I.q ^ 3) / I.mu) ^ ((1 : ℝ) / 9) * t ^ ((4 : ℝ) / 9)

/-- Radial high-leakoff asymptote: `sqrt (q * sqrt t / (pi * pi * CL))`. -/
def Radial_R_high_leakoff (I : FracInputs) (t : ℝ) : ℝ :=
  Real.sqrt (I.q * Real.sqrt t / (Real.pi * Real.pi * I.CL))

/-- The inner `solveRadial` closure. -/
def solveRadial (I : FracInputs) (t : ℝ) : SolveOut :=
  let R := 1 / (1 / Radial_R_no_leakoff I t + 1 / Radial_R_high_leakoff I t)
  let p_net := 1.25 * ((I.mu * I.q * getEPrime I.E I.nu ^ 2) / R ^ 3) ^ (0.25 : ℝ)
  let w_max := 8 * p_net * R / (Real.pi * getEPrime I.E I.nu)
  { L := R, p := p_net, w := w_max }

/-- `calculatePKN`: assembles the PKN `ModelResult`. -/
def calculatePKN (I : FracInputs) : ModelResult :=
  let final := solvePKN I I.time
  let w_avg := Real.pi / 4 * final.w * 0.8
  let Vi := I.q * I.time
  let V_frac := final.L * I.H * w_avg * 2
  { type := ModelType.PKN
    length := final.L
    width_avg := w_avg
    width_max := final.w
    p_net := final.p
    p_well := I.sigma_min + final.p
    efficiency := min 1 (V_frac / Vi)
    volume_injected := Vi
    volume_leakoff := Vi - V_frac
    regime := checkRegime ModelType.PKN (getEPrime I.E I.nu) I.mu I.q I.K_IC final.L I.H
    warnings := if final.L < 2 * I.H then ["L < 2H: PKN assumption violated (Short fracture)."] else []
    timeSeries := generateHistory I.time (solvePKN I)
    profile := generateProfile final.L final.w 0.25 }

/-- `calculateKGD`: assembles the KGD `ModelResult`. -/
def calculateKGD (I : FracInputs) : ModelResult :=
  let final := solveKGD I I.time
  let w_avg := Real.pi / 4 * final.w
  let Vi := I.q * I.time
  let V_frac := 2 * final.L * I.H * w_avg
  { type := ModelType.KGD
    length := final.L
    width_avg := w_avg
    width_max := final.w
    p_net := final.p
    p_well := I.sigma_min + final.p
    efficiency := min 1 (V_frac / Vi)
    volume_injected := Vi
    volume_leakoff := Vi - V_frac
    regime := checkRegime ModelType.KGD (getEPrime I.E I.nu) I.mu I.q I.K_IC final.L I.H
    warnings := if final.L > I.H then ["L > H: KGD assumption violated (Long fracture)."] else []
    timeSeries := generateHistory I.time (solveKGD I)
    profile := generateProfile final.L final.w 0.5 }

/-- `calculateRadial`: assembles the Radial `ModelResult`. -/
def calculateRadial (I : FracInputs) : ModelResult :=
  let final := solveRadial I I.time
  let w_avg := 2 / 3 * final.w
  let Vi := I.q * I.time
  let V_frac := Real.pi * final.L * final.L * w_avg
  { type := ModelType.RADIAL
    length := final.L
    width_avg := w_avg
    width_max := final.w
    p_net := final.p
    p_well := I.sigma_min + final.p
    efficiency := min 1 (V_frac / Vi)
    volume_injected := Vi
    volume_leakoff := Vi - V_frac
    regime := checkRegime ModelType.RADIAL (getEPrime I.E I.nu) I.mu I.q I.K_IC final.L 0
    warnings := []
    timeSeries := generateHistory I.time (solveRadial I)
    profile := generateProfile final.L final.w 0.5 }

/-- The solver dispatch used by `App.tsx` (the `switch (selectedModel)`)
and, in ternary form, by `runSensitivity`. -/
def selectCalc (t : ModelType) : FracInputs → ModelResult :=
  if t = ModelType.PKN then calculatePKN
  else if t = ModelType.KGD then calculateKGD
  else calculateRadial

/-- The entry point of `App.tsx`: run the solver selected by the model
variant on the (SI-normalized) inputs.  Note the type: it is a total
function into `ModelResult`, with no error channel of any kind. -/
def compute (m : ModelType) (I : FracInputs) : ModelResult :=
  match m with
  | ModelType.KGD => calculateKGD I
  | ModelType.RADIAL => calculateRadial I
  | ModelType.PKN => calculatePKN I

/-- The spread-update `{ ...inputs, [param]: inputs[param] * factor }`. -/
def scaleParam (I : FracInputs) (p : ParamKey) (f : ℝ) : FracInputs :=
  match p with
  | ParamKey.mu => { I with mu := I.mu * f }
  | ParamKey.q => { I with q := I.q * f }
  | ParamKey.sigma_min => { I with sigma_min := I.sigma_min * f }
  | ParamKey.CL => { I with CL := I.CL * f }

/-- `runSensitivity`: two nested `forEach` loops over the parameter list
`['mu', 'q', 'sigma_min', 'CL']` and the factor list `[0.5, 2.0]`. -/
def runSensitivity (inputs : FracInputs) (baseResult : ModelResult) : List SensitivityData :=
  List.flatMap [ParamKey.mu, ParamKey.q, ParamKey.sigma_min, ParamKey.CL] (fun param =>
    List.map (fun factor =>
      let newInputs := scaleParam inputs param factor
      let res := selectCalc baseResult.type newInputs
      { parameter := param
        factor := factor
        L_change := (res.length - baseResult.length) / baseResult.length * 100
        w_change := (res.width_avg - baseResult.width_avg) / baseResult.width_avg * 100
        p_change := (res.p_net - baseResult.p_net) / baseResult.p_net * 100 })
      [0.5, 2.0])

/-- The spec's validity domain for inputs (§3):
`E>0, nu ∈ (-1, 0.5), mu>0, q>0, H>0, CL>0, time>0`. -/
def ValidInputs (I : FracInputs) : Prop :=
  0 < I.E ∧ -1 < I.nu ∧ I.nu < 0.5 ∧ 0 < I.mu ∧ 0 < I.q ∧ 0 < I.H ∧ 0 < I.CL ∧ 0 < I.time

/-- A sensitivity row as the spec describes it (§4.6): re-run the solver
selected by the baseline's model type on the input with one parameter
scaled, and report `(perturbed - baseline) / baseline * 100` for length,
average width and net pressure.  Stated independently of `runSensitivity`
so that the latter can be compared against it. -/
def specSensitivityRow (I : FracInputs) (b : ModelResult) (p : ParamKey) (f : ℝ) :
    SensitivityData :=
  let res := selectCalc b.type (scaleParam I p f)
  { parameter := p
    factor := f
    L_change := (res.length - b.length) / b.length * 100
    w_change := (res.width_avg - b.width_avg) / b.width_avg * 100
    p_change := (res.p_net - b.p_net) / b.p_net * 100 }

/-- The spec's illustrative PKN scenario (§8): E = 3e10 Pa, nu = 0.25,
mu = 0.1 Pa.s, q = 0.05 m^3/s, H = 30 m, CL = 5e-5, time = 1800 s. -/
def sampleInputs : FracInputs :=
  { E := 3e10, nu := 0.25, sigma_min := 5e7, CL := 5e-5, mu := 0.1, q := 0.05
    H := 30, K_IC := 1e6, time := 1800, p_limit := 1e8, depth := 2500 }

/-- An invalid input: identical to the sample scenario except `H = 0`,
which violates the `H > 0` domain requirement. -/
def invalidInputs : FracInputs :=
  { E := 3e10, nu := 0.25, sigma_min := 5e7, CL := 5e-5, mu := 0.1, q := 0.05
    H := 0, K_IC := 1e6, time := 1800, p_limit := 1e8, depth := 2500 }

/-! ### Helper lemmas: harmonic combination and positivity -/

/-- The harmonic combination of two positive quantities is positive. -/
theorem harmonicComb_pos {a b : ℝ} (ha : 0 < a) (hb : 0 < b) :
    0 < 1 / (1 / a + 1 / b) :=
  one_div_pos.mpr (add_pos (one_div_pos.mpr ha) (one_div_pos.mpr hb))

/-- The harmonic combination of two positive quantities never exceeds
either of them. -/
theorem harmonicComb_le_min {a b : ℝ} (ha : 0 < a) (hb : 0 < b) :
    1 / (1 / a + 1 / b) ≤ min a b := by
  have h1 : 1 / (1 / a + 1 / b) ≤ 1 / (1 / a) :=
    one_div_le_one_div_of_le (one_div_pos.mpr ha)
      (le_add_of_nonneg_right (one_div_nonneg.mpr hb.le))
  have h2 : 1 / (1 / a + 1 / b) ≤ 1 / (1 / b) :=
    one_div_le_one_div_of_le (one_div_pos.mpr hb)
      (le_add_of_nonneg_left (one_div_nonneg.mpr ha.le))
  rw [one_div_one_div] at h1 h2
  exact le_min h1 h2

/-- The harmonic combination is monotone in both arguments on positives. -/
theorem harmonicComb_mono {a₁ a₂ b₁ b₂ : ℝ} (ha₁ : 0 < a₁) (hb₁ : 0 < b₁)
    (ha : a₁ ≤ a₂) (hb : b₁ ≤ b₂) :
    1 / (1 / a₁ + 1 / b₁) ≤ 1 / (1 / a₂ + 1 / b₂) := by
  have ha₂ : 0 < a₂ := lt_of_lt_of_le ha₁ ha
  have hb₂ : 0 < b₂ := lt_of_lt_of_le hb₁ hb
  have hsum : 1 / a₂ + 1 / b₂ ≤ 1 / a₁ + 1 / b₁ :=
    add_le_add (one_div_le_one_div_of_le ha₁ ha) (one_div_le_one_div_of_le hb₁ hb)
  exact one_div_le_one_div_of_le (add_pos (one_div_pos.mpr ha₂) (one_div_pos.mpr hb₂)) hsum

/-- The plane-strain modulus is positive on the valid domain of `nu`. -/
theorem getEPrime_pos {E nu : ℝ} (hE : 0 < E) (h1 : -1 < nu) (h2 : nu < 0.5) :
    0 < getEPrime E nu := by
  unfold getEPrime
  have h3 : (0 : ℝ) < 1 - nu ^ 2 := by nlinarith
  exact div_pos hE h3

/-- Positivity of the PKN no-leakoff asymptote. -/
theorem PKN_L_no_leakoff_pos {I : FracInputs} (h : ValidInputs I) {t : ℝ} (ht : 0 < t) :
    0 < PKN_L_no_leakoff I t := by
  obtain ⟨hE, h1, h2, hmu, hq, hH, hCL, htime⟩ := h
  have hEp : 0 < getEPrime I.E I.nu := getEPrime_pos hE h1 h2
  have hbase : 0 < (I.q ^ 3 * getEPrime I.E I.nu) / (I.mu * I.H ^ 4) :=
    div_pos (mul_pos (pow_pos hq 3) hEp) (mul_pos hmu (pow_pos hH 4))
  exact mul_pos (mul_pos (by norm_num) (Real.rpow_pos_of_pos hbase _))
    (Real.rpow_pos_of_pos ht _)

/-- Positivity of the PKN high-leakoff asymptote. -/
theorem PKN_L_high_leakoff_pos {I : FracInputs} (h : ValidInputs I) {t : ℝ} (ht : 0 < t) :
    0 < PKN_L_high_leakoff I t := by
  obtain ⟨hE, h1, h2, hmu, hq, hH, hCL, htime⟩ := h
  exact div_pos (mul_pos hq (Real.sqrt_pos.mpr ht))
    (mul_pos (mul_pos (mul_pos two_pos Real.pi_pos) hCL) hH)

/-- Positivity of the KGD no-leakoff asymptote. -/
theorem KGD_L_no_leakoff_pos {I : FracInputs} (h : ValidInputs I) {t : ℝ} (ht : 0 < t) :
    0 < KGD_L_no_leakoff I t := by
  obtain ⟨hE, h1, h2, hmu, hq, hH, hCL, htime⟩ := h
  have hEp : 0 < getEPrime I.E I.nu := getEPrime_pos hE h1 h2
  have hbase : 0 < (getEPrime I.E I.nu * I.q ^ 3) / (I.mu * I.H ^ 3) :=
    div_pos (mul_pos hEp (pow_pos hq 3)) (mul_pos hmu (pow_pos hH 3))
  exact mul_pos (mul_pos (by norm_num) (Real.rpow_pos_of_pos hbase _))
    (Real.rpow_pos_of_pos ht _)

/-- Positivity of the KGD high-leakoff asymptote. -/
theorem KGD_L_high_leakoff_pos {I : FracInputs} (h : ValidInputs I) {t : ℝ} (ht : 0 < t) :
    0 < KGD_L_high_leakoff I t := by
  obtain ⟨hE, h1, h2, hmu, hq, hH, hCL, htime⟩ := h
  exact div_pos (mul_pos hq (Real.sqrt_pos.mpr ht))
    (mul_pos (mul_pos (mul_pos two_pos Real.pi_pos) hCL) hH)

/-- Positivity of the Radial no-leakoff asymptote. -/
theorem Radial_R_no_leakoff_pos {I : FracInputs} (h : ValidInputs I) {t : ℝ} (ht : 0 < t) :
    0 < Radial_R_no_leakoff I t := by
  obtain ⟨hE, h1, h2, hmu, hq, hH, hCL, htime⟩ := h
  have hEp : 0 < getEPrime I.E I.nu := getEPrime_pos hE h1 h2
  have hbase : 0 < (getEPrime I.E I.nu * I.q ^ 3) / I.mu :=
    div_pos (mul_pos hEp (pow_pos hq 3)) hmu
  exact mul_pos (mul_pos (by norm_num) (Real.rpow_pos_of_pos hbase _))
    (Real.rpow_pos_of_pos ht _)

/-- Positivity of the Radial high-leakoff asymptote. -/
theorem Radial_R_high_leakoff_pos {I : FracInputs} (h : ValidInputs I) {t : ℝ} (ht : 0 < t) :
    0 < Radial_R_high_leakoff I t := by
  obtain ⟨hE, h1, h2, hmu, hq, hH, hCL, htime⟩ := h
  exact Real.sqrt_pos.mpr (div_pos (mul_pos hq (Real.sqrt_pos.mpr ht))
    (mul_pos (mul_pos Real.pi_pos Real.pi_pos) hCL))

/-- Unfolding of the combined PKN extent. -/
theorem solvePKN_L (I : FracInputs) (t : ℝ) :
    (solvePKN I t).L = 1 / (1 / PKN_L_no_leakoff I t + 1 / PKN_L_high_leakoff I t) := rfl

/-- Unfolding of the combined KGD extent. -/
theorem solveKGD_L (I : FracInputs) (t : ℝ) :
    (solveKGD I t).L = 1 / (1 / KGD_L_no_leakoff I t + 1 / KGD_L_high_leakoff I t) := rfl

/-- Unfolding of the combined Radial extent. -/
theorem solveRadial_L (I : FracInputs) (t : ℝ) :
    (solveRadial I t).L = 1 / (1 / Radial_R_no_leakoff I t + 1 / Radial_R_high_leakoff I t) := rfl

/-- Positivity of the combined PKN extent. -/
theorem solvePKN_L_pos {I : FracInputs} (h : ValidInputs I) {t : ℝ} (ht : 0 < t) :
    0 < (solvePKN I t).L := by
  rw [solvePKN_L]
  exact harmonicComb_pos (PKN_L_no_leakoff_pos h ht) (PKN_L_high_leakoff_pos h ht)

/-- Positivity of the combined KGD extent. -/
theorem solveKGD_L_pos {I : FracInputs} (h : ValidInputs I) {t : ℝ} (ht : 0 < t) :
    0 < (solveKGD I t).L := by
  rw [solveKGD_L]
  exact harmonicComb_pos (KGD_L_no_leakoff_pos h ht) (KGD_L_high_leakoff_pos h ht)

/-- Positivity of the combined Radial extent. -/
theorem solveRadial_L_pos {I : FracInputs} (h : ValidInputs I) {t : ℝ} (ht : 0 < t) :
    0 < (solveRadial I t).L := by
  rw [solveRadial_L]
  exact harmonicComb_pos (Radial_R_no_leakoff_pos h ht) (Radial_R_high_leakoff_pos h ht)

/-- Positivity of the PKN net pressure. -/
theorem solvePKN_p_pos {I : FracInputs} (h : ValidInputs I) {t : ℝ} (ht : 0 < t) :
    0 < (solvePKN I t).p := by
  obtain ⟨hE, h1, h2, hmu, hq, hH, hCL, htime⟩ := h
  have hEp : 0 < getEPrime I.E I.nu := getEPrime_pos hE h1 h2
  have hL : 0 < (solvePKN I t).L := solvePKN_L_pos ⟨hE, h1, h2, hmu, hq, hH, hCL, htime⟩ ht
  have hbase : 0 < (I.mu * I.q * (solvePKN I t).L) / I.H ^ 4 :=
    div_pos (mul_pos (mul_pos hmu hq) hL) (pow_pos hH 4)
  show 0 < 2.5 * ((I.mu * I.q * (solvePKN I t).L) / I.H ^ 4) ^ (0.25 : ℝ)
      * getEPrime I.E I.nu ^ (0.75 : ℝ)
  exact mul_pos (mul_pos (by norm_num) (Real.rpow_pos_of_pos hbase _))
    (Real.rpow_pos_of_pos hEp _)

/-- Positivity of the PKN maximum width. -/
theorem solvePKN_w_pos {I : FracInputs} (h : ValidInputs I) {t : ℝ} (ht : 0 < t) :
    0 < (solvePKN I t).w := by
  obtain ⟨hE, h1, h2, hmu, hq, hH, hCL, htime⟩ := h
  have hEp : 0 < getEPrime I.E I.nu := getEPrime_pos hE h1 h2
  have hp : 0 < (solvePKN I t).p := solvePKN_p_pos ⟨hE, h1, h2, hmu, hq, hH, hCL, htime⟩ ht
  show 0 < 3 * (solvePKN I t).p * I.H / getEPrime I.E I.nu
  exact div_pos (mul_pos (mul_pos three_pos hp) hH) hEp

/-- Positivity of the KGD maximum width. -/
theorem solveKGD_w_pos {I : FracInputs} (h : ValidInputs I) {t : ℝ} (ht : 0 < t) :
    0 < (solveKGD I t).w := by
  obtain ⟨hE, h1, h2, hmu, hq, hH, hCL, htime⟩ := h
  have hEp : 0 < getEPrime I.E I.nu := getEPrime_pos hE h1 h2
  have hL : 0 < (solveKGD I t).L := solveKGD_L_pos ⟨hE, h1, h2, hmu, hq, hH, hCL, htime⟩ ht
  have hbase : 0 < (I.mu * I.q * (solveKGD I t).L ^ 2) / (getEPrime I.E I.nu * I.H) :=
    div_pos (mul_pos (mul_pos hmu hq) (pow_pos hL 2)) (mul_pos hEp hH)
  show 0 < 1.32 * ((I.mu * I.q * (solveKGD I t).L ^ 2) / (getEPrime I.E I.nu * I.H)) ^ (0.25 : ℝ)
  exact mul_pos (by norm_num) (Real.rpow_pos_of_pos hbase _)

/-- Positivity of the KGD net pressure. -/
theorem solveKGD_p_pos {I : FracInputs} (h : ValidInputs I) {t : ℝ} (ht : 0 < t) :
    0 < (solveKGD I t).p := by
  obtain ⟨hE, h1, h2, hmu, hq, hH, hCL, htime⟩ := h
  have hEp : 0 < getEPrime I.E I.nu := getEPrime_pos hE h1 h2
  have hL : 0 < (solveKGD I t).L := solveKGD_L_pos ⟨hE, h1, h2, hmu, hq, hH, hCL, htime⟩ ht
  have hw : 0 < (solveKGD I t).w := solveKGD_w_pos ⟨hE, h1, h2, hmu, hq, hH, hCL, htime⟩ ht
  show 0 < getEPrime I.E I.nu * (solveKGD I t).w / (4 * (solveKGD I t).L)
  exact div_pos (mul_pos hEp hw) (mul_pos four_pos hL)

/-- Positivity of the Radial net pressure. -/
theorem solveRadial_p_pos {I : FracInputs} (h : ValidInputs I) {t : ℝ} (ht : 0 < t) :
    0 < (solveRadial I t).p := by
  obtain ⟨hE, h1, h2, hmu, hq, hH, hCL, htime⟩ := h
  have hEp : 0 < getEPrime I.E I.nu := getEPrime_pos hE h1 h2
  have hR : 0 < (solveRadial I t).L := solveRadial_L_pos ⟨hE, h1, h2, hmu, hq, hH, hCL, htime⟩ ht
  have hbase : 0 < (I.mu * I.q * getEPrime I.E I.nu ^ 2) / (solveRadial I t).L ^ 3 :=
    div_pos (mul_pos (mul_pos hmu hq) (pow_pos hEp 2)) (pow_pos hR 3)
  show 0 < 1.25 * ((I.mu * I.q * getEPrime I.E I.nu ^ 2) / (solveRadial I t).L ^ 3) ^ (0.25 : ℝ)
  exact mul_pos (by norm_num) (Real.rpow_pos_of_pos hbase _)

/-- Positivity of the Radial maximum width. -/
theorem solveRadial_w_pos {I : FracInputs} (h : ValidInputs I) {t : ℝ} (ht : 0 < t) :
    0 < (solveRadial I t).w := by
  obtain ⟨hE, h1, h2, hmu, hq, hH, hCL, htime⟩ := h
  have hEp : 0 < getEPrime I.E I.nu := getEPrime_pos hE h1 h2
  have hR : 0 < (solveRadial I t).L := solveRadial_L_pos ⟨hE, h1, h2, hmu, hq, hH, hCL, htime⟩ ht
  have hp : 0 < (solveRadial I t).p := solveRadial_p_pos ⟨hE, h1, h2, hmu, hq, hH, hCL, htime⟩ ht
  show 0 < 8 * (solveRadial I t).p * (solveRadial I t).L / (Real.pi * getEPrime I.E I.nu)
  exact div_pos (mul_pos (mul_pos (by norm_num) hp) hR) (mul_pos Real.pi_pos hEp)

/-! ### Helper lemmas: monotonicity of the asymptotes and extents in time -/

/-- The PKN no-leakoff asymptote is monotone in time. -/
theorem PKN_L_no_leakoff_mono {I : FracInputs} (h : ValidInputs I) {t₁ t₂ : ℝ}
    (h1 : 0 < t₁) (h12 : t₁ ≤ t₂) :
    PKN_L_no_leakoff I t₁ ≤ PKN_L_no_leakoff I t₂ := by
  obtain ⟨hE, hn1, hn2, hmu, hq, hH, hCL, htime⟩ := h
  have hEp : 0 < getEPrime I.E I.nu := getEPrime_pos hE hn1 hn2
  have hbase : (0 : ℝ) ≤ (I.q ^ 3 * getEPrime I.E I.nu) / (I.mu * I.H ^ 4) :=
    (div_pos (mul_pos (pow_pos hq 3) hEp) (mul_pos hmu (pow_pos hH 4))).le
  unfold PKN_L_no_leakoff
  exact mul_le_mul_of_nonneg_left (Real.rpow_le_rpow h1.le h12 (by norm_num))
    (mul_nonneg (by norm_num) (Real.rpow_nonneg hbase _))

/-- The PKN high-leakoff asymptote is monotone in time. -/
theorem PKN_L_high_leakoff_mono {I : FracInputs} (h : ValidInputs I) {t₁ t₂ : ℝ}
    (h12 : t₁ ≤ t₂) :
    PKN_L_high_leakoff I t₁ ≤ PKN_L_high_leakoff I t₂ := by
  obtain ⟨hE, hn1, hn2, hmu, hq, hH, hCL, htime⟩ := h
  have hden : 0 < 2 * Real.pi * I.CL * I.H :=
    mul_pos (mul_pos (mul_pos two_pos Real.pi_pos) hCL) hH
  unfold PKN_L_high_leakoff
  exact div_le_div_of_nonneg_right
    (mul_le_mul_of_nonneg_left (Real.sqrt_le_sqrt h12) hq.le) hden.le

/-- The KGD no-leakoff asymptote is monotone in time. -/
theorem KGD_L_no_leakoff_mono {I : FracInputs} (h : ValidInputs I) {t₁ t₂ : ℝ}
    (h1 : 0 < t₁) (h12 : t₁ ≤ t₂) :
    KGD_L_no_leakoff I t₁ ≤ KGD_L_no_leakoff I t₂ := by
  obtain ⟨hE, hn1, hn2, hmu, hq, hH, hCL, htime⟩ := h
  have hEp : 0 < getEPrime I.E I.nu := getEPrime_pos hE hn1 hn2
  have hbase : (0 : ℝ) ≤ (getEPrime I.E I.nu * I.q ^ 3) / (I.mu * I.H ^ 3) :=
    (div_pos (mul_pos hEp (pow_pos hq 3)) (mul_pos hmu (pow_pos hH 3))).le
  unfold KGD_L_no_leakoff
  exact mul_le_mul_of_nonneg_left (Real.rpow_le_rpow h1.le h12 (by norm_num))
    (mul_nonneg (by norm_num) (Real.rpow_nonneg hbase _))

/-- The KGD high-leakoff asymptote is monotone in time. -/
theorem KGD_L_high_leakoff_mono {I : FracInputs} (h : ValidInputs I) {t₁ t₂ : ℝ}
    (h12 : t₁ ≤ t₂) :
    KGD_L_high_leakoff I t₁ ≤ KGD_L_high_leakoff I t₂ := by
  obtain ⟨hE, hn1, hn2, hmu, hq, hH, hCL, htime⟩ := h
  have hden : 0 < 2 * Real.pi * I.CL * I.H :=
    mul_pos (mul_pos (mul_pos two_pos Real.pi_pos) hCL) hH
  unfold KGD_L_high_leakoff
  exact div_le_div_of_nonneg_right
    (mul_le_mul_of_nonneg_left (Real.sqrt_le_sqrt h12) hq.le) hden.le

/-- The Radial no-leakoff asymptote is monotone in time. -/
theorem Radial_R_no_leakoff_mono {I : FracInputs} (h : ValidInputs I) {t₁ t₂ : ℝ}
    (h1 : 0 < t₁) (h12 : t₁ ≤ t₂) :
    Radial_R_no_leakoff I t₁ ≤ Radial_R_no_leakoff I t₂ := by
  obtain ⟨hE, hn1, hn2, hmu, hq, hH, hCL, htime⟩ := h
  have hEp : 0 < getEPrime I.E I.nu := getEPrime_pos hE hn1 hn2
  have hbase : (0 : ℝ) ≤ (getEPrime I.E I.nu * I.q ^ 3) / I.mu :=
    (div_pos (mul_pos hEp (pow_pos hq 3)) hmu).le
  unfold Radial_R_no_leakoff
  exact mul_le_mul_of_nonneg_left (Real.rpow_le_rpow h1.le h12 (by norm_num))
    (mul_nonneg (by norm_num) (Real.rpow_nonneg hbase _))

/-- The Radial high-leakoff asymptote is monotone in time. -/
theorem Radial_R_high_leakoff_mono {I : FracInputs} (h : ValidInputs I) {t₁ t₂ : ℝ}
    (h12 : t₁ ≤ t₂) :
    Radial_R_high_leakoff I t₁ ≤ Radial_R_high_leakoff I t₂ := by
  obtain ⟨hE, hn1, hn2, hmu, hq, hH, hCL, htime⟩ := h
  have hden : 0 < Real.pi * Real.pi * I.CL :=
    mul_pos (mul_pos Real.pi_pos Real.pi_pos) hCL
  unfold Radial_R_high_leakoff
  exact Real.sqrt_le_sqrt (div_le_div_of_nonneg_right
    (mul_le_mul_of_nonneg_left (Real.sqrt_le_sqrt h12) hq.le) hden.le)

/-- The combined PKN extent is monotone in time. -/
theorem solvePKN_L_mono {I : FracInputs} (h : ValidInputs I) {t₁ t₂ : ℝ}
    (h1 : 0 < t₁) (h12 : t₁ ≤ t₂) :
    (solvePKN I t₁).L ≤ (solvePKN I t₂).L := by
  rw [solvePKN_L, solvePKN_L]
  exact harmonicComb_mono (PKN_L_no_leakoff_pos h h1) (PKN_L_high_leakoff_pos h h1)
    (PKN_L_no_leakoff_mono h h1 h12) (PKN_L_high_leakoff_mono h h12)

/-- The combined KGD extent is monotone in time. -/
theorem solveKGD_L_mono {I : FracInputs} (h : ValidInputs I) {t₁ t₂ : ℝ}
    (h1 : 0 < t₁) (h12 : t₁ ≤ t₂) :
    (solveKGD I t₁).L ≤ (solveKGD I t₂).L := by
  rw [solveKGD_L, solveKGD_L]
  exact harmonicComb_mono (KGD_L_no_leakoff_pos h h1) (KGD_L_high_leakoff_pos h h1)
    (KGD_L_no_leakoff_mono h h1 h12) (KGD_L_high_leakoff_mono h h12)

/-- The combined Radial extent is monotone in time. -/
theorem solveRadial_L_mono {I : FracInputs} (h : ValidInputs I) {t₁ t₂ : ℝ}
    (h1 : 0 < t₁) (h12 : t₁ ≤ t₂) :
    (solveRadial I t₁).L ≤ (solveRadial I t₂).L := by
  rw [solveRadial_L, solveRadial_L]
  exact harmonicComb_mono (Radial_R_no_leakoff_pos h h1) (Radial_R_high_leakoff_pos h h1)
    (Radial_R_no_leakoff_mono h h1 h12) (Radial_R_high_leakoff_mono h h12)

/-! ### Helper lemmas: structure of the sampled sequences -/

/-- A list built by mapping over `List.range` is pairwise-related whenever
the generating function respects the relation on increasing indices. -/
theorem pairwise_map_range {α : Type} {R : α → α → Prop} (n : ℕ) (f : ℕ → α)
    (h : ∀ i j : ℕ, i < j → R (f i) (f j)) :
    List.Pairwise R ((List.range n).map f) :=
  List.pairwise_map.mpr (List.Pairwise.imp (fun hij => h _ _ hij) (List.pairwise_lt_range n))

/-- The time history always holds exactly 50 records. -/
theorem generateHistory_length (T : ℝ) (f : ℝ → SolveOut) :
    (generateHistory T f).length = 50 := by
  simp [generateHistory]

/-- The `i`-th record of the time history (0-based) is the closed-form
evaluation at `t = T/50 * (i+1)`. -/
theorem generateHistory_getD (T : ℝ) (f : ℝ → SolveOut) {i : ℕ} (hi : i < 50) :
    (generateHistory T f).getD i ⟨0, 0, 0, 0⟩ =
      { time := T / 50 * ((i : ℝ) + 1), length := (f (T / 50 * ((i : ℝ) + 1))).L,
        width := (f (T / 50 * ((i : ℝ) + 1))).w,
        pressure := (f (T / 50 * ((i : ℝ) + 1))).p } := by
  have hlen : i < (generateHistory T f).length := by
    rw [generateHistory_length]; exact hi
  rw [List.getD_eq_getElem _ _ hlen]
  simp [generateHistory]

/-- The last record of the time history is the closed-form evaluation at
the total elapsed time `T` itself. -/
theorem generateHistory_getLast (T : ℝ) (f : ℝ → SolveOut) :
    (generateHistory T f).getLast? =
      some { time := T, length := (f T).L, width := (f T).w, pressure := (f T).p } := by
  have h50 : List.range 50 = List.range 49 ++ [49] := List.range_succ 49
  have ht : T / 50 * (((49 : ℕ) : ℝ) + 1) = T := by
    push_cast
    ring
  unfold generateHistory
  rw [h50, List.map_append]
  simp only [List.map_cons, List.map_nil]
  rw [List.getLast?_concat]
  simp only [ht]

/-- Bundled shape facts for the time history: 50 records at the times
`T/50 * i`, `i = 1..50`, strictly ascending in time, with non-decreasing
length whenever the per-instant extent is monotone in time. -/
theorem generateHistory_spec (T : ℝ) (hT : 0 < T) (f : ℝ → SolveOut)
    (hmono : ∀ {t₁ t₂ : ℝ}, 0 < t₁ → t₁ ≤ t₂ → (f t₁).L ≤ (f t₂).L) :
    (generateHistory T f).length = 50 ∧
    (∀ i : ℕ, i < 50 → ((generateHistory T f).getD i ⟨0, 0, 0, 0⟩).time
        = T / 50 * ((i : ℝ) + 1)) ∧
    List.Pairwise (fun a b : TimeStep => a.time < b.time ∧ a.length ≤ b.length)
      (generateHistory T f) := by
  refine ⟨generateHistory_length T f, fun i hi => by rw [generateHistory_getD T f hi], ?_⟩
  unfold generateHistory
  refine pairwise_map_range 50 _ (fun i j hij => ?_)
  have hstep : (0 : ℝ) < T / 50 := div_pos hT (by norm_num)
  have hij1 : ((i : ℝ) + 1) < ((j : ℝ) + 1) := by exact_mod_cast Nat.succ_lt_succ hij
  have htlt : T / 50 * ((i : ℝ) + 1) < T / 50 * ((j : ℝ) + 1) :=
    mul_lt_mul_of_pos_left hij1 hstep
  have hipos : (0 : ℝ) < (i : ℝ) + 1 := by positivity
  exact ⟨htlt, hmono (mul_pos hstep hipos) htlt.le⟩

/-- The width profile always holds exactly 51 records. -/
theorem generateProfile_length (L w e : ℝ) :
    (generateProfile L w e).length = 51 := by
  simp [generateProfile]

/-- The `i`-th record of the width profile (0-based) samples the power-law
shape at position `L/50 * i`. -/
theorem generateProfile_getD (L w e : ℝ) {i : ℕ} (hi : i < 51) :
    (generateProfile L w e).getD i ⟨0, 0⟩ =
      { position := L / 50 * (i : ℝ),
        width := w * (1 - (L / 50 * (i : ℝ)) / L) ^ e } := by
  have hlen : i < (generateProfile L w e).length := by
    rw [generateProfile_length]; exact hi
  rw [List.getD_eq_getElem _ _ hlen]
  simp [generateProfile]

/-! ### Claim theorems -/

/-- C1: for every valid input, at every positive elapsed time, and for each
of the three models, the harmonically combined extent `1/(1/L_no + 1/L_high)`
is at most the minimum of the no-leakoff and high-leakoff asymptotes. -/
theorem combined_extent_le_min_asymptotes (I : FracInputs) (h : ValidInputs I)
    (t : ℝ) (ht : 0 < t) :
    (solvePKN I t).L ≤ min (PKN_L_no_leakoff I t) (PKN_L_high_leakoff I t) ∧
    (solveKGD I t).L ≤ min (KGD_L_no_leakoff I t) (KGD_L_high_leakoff I t) ∧
    (solveRadial I t).L ≤ min (Radial_R_no_leakoff I t) (Radial_R_high_leakoff I t) := by
  refine ⟨?_, ?_, ?_⟩
  · rw [solvePKN_L]
    exact harmonicComb_le_min (PKN_L_no_leakoff_pos h ht) (PKN_L_high_leakoff_pos h ht)
  · rw [solveKGD_L]
    exact harmonicComb_le_min (KGD_L_no_leakoff_pos h ht) (KGD_L_high_leakoff_pos h ht)
  · rw [solveRadial_L]
    exact harmonicComb_le_min (Radial_R_no_leakoff_pos h ht) (Radial_R_high_leakoff_pos h ht)

/-- Witness for C1 at the spec's illustrative scenario and `t = 1`. -/
theorem combined_extent_le_min_asymptotes_witness :
    ValidInputs sampleInputs ∧ (0 : ℝ) < 1 ∧
    ((solvePKN sampleInputs 1).L
        ≤ min (PKN_L_no_leakoff sampleInputs 1) (PKN_L_high_leakoff sampleInputs 1) ∧
      (solveKGD sampleInputs 1).L
        ≤ min (KGD_L_no_leakoff sampleInputs 1) (KGD_L_high_leakoff sampleInputs 1) ∧
      (solveRadial sampleInputs 1).L
        ≤ min (Radial_R_no_leakoff sampleInputs 1) (Radial_R_high_leakoff sampleInputs 1)) :=
  ⟨by norm_num [ValidInputs, sampleInputs], by norm_num,
    combined_extent_le_min_asymptotes sampleInputs
      (by norm_num [ValidInputs, sampleInputs]) 1 (by norm_num)⟩

/-- C3: for every valid input and each of the three models, the efficiency
field of the returned result lies in `[0, 1]`. -/
theorem efficiency_in_unit_interval (I : FracInputs) (h : ValidInputs I) :
    (0 ≤ (calculatePKN I).efficiency ∧ (calculatePKN I).efficiency ≤ 1) ∧
    (0 ≤ (calculateKGD I).efficiency ∧ (calculateKGD I).efficiency ≤ 1) ∧
    (0 ≤ (calculateRadial I).efficiency ∧ (calculateRadial I).efficiency ≤ 1) := by
  obtain ⟨hE, hn1, hn2, hmu, hq, hH, hCL, htime⟩ := h
  have h' : ValidInputs I := ⟨hE, hn1, hn2, hmu, hq, hH, hCL, htime⟩
  have hVi : 0 < I.q * I.time := mul_pos hq htime
  refine ⟨⟨?_, ?_⟩, ⟨?_, ?_⟩, ⟨?_, ?_⟩⟩
  · have hV : 0 < (solvePKN I I.time).L * I.H
        * (Real.pi / 4 * (solvePKN I I.time).w * 0.8) * 2 :=
      mul_pos (mul_pos (mul_pos (solvePKN_L_pos h' htime) hH)
        (mul_pos (mul_pos (div_pos Real.pi_pos four_pos) (solvePKN_w_pos h' htime))
          (by norm_num))) two_pos
    exact le_min (by norm_num) (div_nonneg hV.le hVi.le)
  · exact min_le_left 1 _
  · have hV : 0 < 2 * (solveKGD I I.time).L * I.H
        * (Real.pi / 4 * (solveKGD I I.time).w) :=
      mul_pos (mul_pos (mul_pos two_pos (solveKGD_L_pos h' htime)) hH)
        (mul_pos (div_pos Real.pi_pos four_pos) (solveKGD_w_pos h' htime))
    exact le_min (by norm_num) (div_nonneg hV.le hVi.le)
  · exact min_le_left 1 _
  · have hV : 0 < Real.pi * (solveRadial I I.time).L * (solveRadial I I.time).L
        * (2 / 3 * (solveRadial I I.time).w) :=
      mul_pos (mul_pos (mul_pos Real.pi_pos (solveRadial_L_pos h' htime))
        (solveRadial_L_pos h' htime))
        (mul_pos (by norm_num) (solveRadial_w_pos h' htime))
    exact le_min (by norm_num) (div_nonneg hV.le hVi.le)
  · exact min_le_left 1 _

/-- Witness for C3 at the spec's illustrative scenario. -/
theorem efficiency_in_unit_interval_witness :
    ValidInputs sampleInputs ∧
    ((0 ≤ (calculatePKN sampleInputs).efficiency ∧ (calculatePKN sampleInputs).efficiency ≤ 1) ∧
      (0 ≤ (calculateKGD sampleInputs).efficiency ∧ (calculateKGD sampleInputs).efficiency ≤ 1) ∧
      (0 ≤ (calculateRadial sampleInputs).efficiency ∧
        (calculateRadial sampleInputs).efficiency ≤ 1)) :=
  ⟨by norm_num [ValidInputs, sampleInputs],
    efficiency_in_unit_interval sampleInputs (by norm_num [ValidInputs, sampleInputs])⟩

/-- C4: for every valid input and each model, the reported leaked-off volume
is `injected - contained` with no clamp; whenever the contained volume
exceeds the injected volume, the efficiency is clamped to 1 while the
leaked-off volume is negative. -/
theorem volume_leakoff_unclamped (I : FracInputs) (h : ValidInputs I) :
    ((calculatePKN I).volume_leakoff
        = I.q * I.time - (calculatePKN I).length * I.H * (calculatePKN I).width_avg * 2) ∧
    ((calculatePKN I).length * I.H * (calculatePKN I).width_avg * 2 > I.q * I.time →
      (calculatePKN I).efficiency = 1 ∧ (calculatePKN I).volume_leakoff < 0) ∧
    ((calculateKGD I).volume_leakoff
        = I.q * I.time - 2 * (calculateKGD I).length * I.H * (calculateKGD I).width_avg) ∧
    (2 * (calculateKGD I).length * I.H * (calculateKGD I).width_avg > I.q * I.time →
      (calculateKGD I).efficiency = 1 ∧ (calculateKGD I).volume_leakoff < 0) ∧
    ((calculateRadial I).volume_leakoff
        = I.q * I.time
          - Real.pi * (calculateRadial I).length * (calculateRadial I).length
            * (calculateRadial I).width_avg) ∧
    (Real.pi * (calculateRadial I).length * (calculateRadial I).length
        * (calculateRadial I).width_avg > I.q * I.time →
      (calculateRadial I).efficiency = 1 ∧ (calculateRadial I).volume_leakoff < 0) := by
  obtain ⟨hE, hn1, hn2, hmu, hq, hH, hCL, htime⟩ := h
  have hVi : 0 < I.q * I.time := mul_pos hq htime
  refine ⟨rfl, fun hgt => ⟨?_, ?_⟩, rfl, fun hgt => ⟨?_, ?_⟩, rfl, fun hgt => ⟨?_, ?_⟩⟩
  · exact min_eq_left ((one_le_div hVi).mpr hgt.le)
  · exact sub_neg.mpr hgt
  · exact min_eq_left ((one_le_div hVi).mpr hgt.le)
  · exact sub_neg.mpr hgt
  · exact min_eq_left ((one_le_div hVi).mpr hgt.le)
  · exact sub_neg.mpr hgt

/-- Witness for C4 at the spec's illustrative scenario. -/
theorem volume_leakoff_unclamped_witness :
    ValidInputs sampleInputs ∧
    (calculatePKN sampleInputs).volume_leakoff
      = sampleInputs.q * sampleInputs.time
        - (calculatePKN sampleInputs).length * sampleInputs.H
          * (calculatePKN sampleInputs).width_avg * 2 :=
  ⟨by norm_num [ValidInputs, sampleInputs],
    (volume_leakoff_unclamped sampleInputs (by norm_num [ValidInputs, sampleInputs])).1⟩

/-- C5: the PKN warning list is non-empty exactly when the final length is
below `2H`, the KGD warning list is non-empty exactly when the final length
exceeds `H`, and the Radial warning list is always empty. -/
theorem warnings_iff_geometry (I : FracInputs) :
    ((calculatePKN I).warnings ≠ [] ↔ (calculatePKN I).length < 2 * I.H) ∧
    ((calculateKGD I).warnings ≠ [] ↔ (calculateKGD I).length > I.H) ∧
    (calculateRadial I).warnings = [] := by
  refine ⟨?_, ?_, rfl⟩
  · show (if (solvePKN I I.time).L < 2 * I.H
        then ["L < 2H: PKN assumption violated (Short fracture)."] else []) ≠ []
        ↔ (solvePKN I I.time).L < 2 * I.H
    split_ifs with hc <;> simp [hc]
  · show (if (solveKGD I I.time).L > I.H
        then ["L > H: KGD assumption violated (Long fracture)."] else []) ≠ []
        ↔ (solveKGD I I.time).L > I.H
    split_ifs with hc <;> simp [hc]

/-- C6: the regime label is `Toughness` exactly when
`K_IC / (mu * q * 1e6) > 100` and `Viscosity` otherwise, for all three
models; the classifier ignores its model-type and geometry arguments. -/
theorem regime_pure_threshold (I : FracInputs) (m₁ m₂ : ModelType)
    (Ep₁ Ep₂ RL₁ RL₂ H₁ H₂ mu q K : ℝ) :
    ((calculatePKN I).regime
        = if I.K_IC / (I.mu * I.q * 1e6) > 100 then Regime.Toughness else Regime.Viscosity) ∧
    ((calculateKGD I).regime
        = if I.K_IC / (I.mu * I.q * 1e6) > 100 then Regime.Toughness else Regime.Viscosity) ∧
    ((calculateRadial I).regime
        = if I.K_IC / (I.mu * I.q * 1e6) > 100 then Regime.Toughness else Regime.Viscosity) ∧
    checkRegime m₁ Ep₁ mu q K RL₁ H₁ = checkRegime m₂ Ep₂ mu q K RL₂ H₂ :=
  ⟨rfl, rfl, rfl, rfl⟩

/-- C7: the sensitivity analyzer returns exactly the 8 rows described by the
spec, in parameter-major then factor-minor order, each produced by re-running
the baseline's solver with one parameter scaled and reporting
`(perturbed - baseline) / baseline * 100`. -/
theorem runSensitivity_eq_spec_rows (I : FracInputs) (b : ModelResult) :
    runSensitivity I b =
      [specSensitivityRow I b ParamKey.mu 0.5, specSensitivityRow I b ParamKey.mu 2.0,
        specSensitivityRow I b ParamKey.q 0.5, specSensitivityRow I b ParamKey.q 2.0,
        specSensitivityRow I b ParamKey.sigma_min 0.5,
        specSensitivityRow I b ParamKey.sigma_min 2.0,
        specSensitivityRow I b ParamKey.CL 0.5, specSensitivityRow I b ParamKey.CL 2.0] ∧
    (runSensitivity I b).length = 8 := by
  constructor
  · rfl
  · rfl

/-- C2 (code evidence): the computation entry point performs no input
validation.  On an invalid input (`H = 0`, all other parameters valid) the
PKN solver still runs and an ordinary, fully populated `ModelResult` is
returned; there is no typed-failure channel anywhere in the entry point's
type. -/
theorem solver_runs_on_invalid_input :
    ¬ ValidInputs invalidInputs ∧
    (compute ModelType.PKN invalidInputs).type = ModelType.PKN ∧
    (compute ModelType.PKN invalidInputs).volume_injected
      = invalidInputs.q * invalidInputs.time ∧
    (compute ModelType.PKN invalidInputs).timeSeries.length = 50 := by
  refine ⟨?_, rfl, rfl, generateHistory_length _ _⟩
  intro hv
  have : (0 : ℝ) < invalidInputs.H := hv.2.2.2.2.2.1
  norm_num [invalidInputs] at this

/-- C8: for every valid input and each model, the time history holds 50
records at the times `i * T/50`, `i = 1..50`, strictly ascending in time,
and its length field is non-decreasing along the sequence. -/
theorem timeSeries_sampling_monotone (m : ModelType) (I : FracInputs) (h : ValidInputs I) :
    (compute m I).timeSeries.length = 50 ∧
    (∀ i : ℕ, i < 50 → ((compute m I).timeSeries.getD i ⟨0, 0, 0, 0⟩).time
        = I.time / 50 * ((i : ℝ) + 1)) ∧
    List.Pairwise (fun a b : TimeStep => a.time < b.time ∧ a.length ≤ b.length)
      (compute m I).timeSeries := by
  have htime : 0 < I.time := h.2.2.2.2.2.2.2
  cases m with
  | PKN =>
    exact generateHistory_spec I.time htime (solvePKN I)
      (fun h1 h12 => solvePKN_L_mono h h1 h12)
  | KGD =>
    exact generateHistory_spec I.time htime (solveKGD I)
      (fun h1 h12 => solveKGD_L_mono h h1 h12)
  | RADIAL =>
    exact generateHistory_spec I.time htime (solveRadial I)
      (fun h1 h12 => solveRadial_L_mono h h1 h12)

/-- Witness for C8 at the spec's illustrative scenario, PKN model. -/
theorem timeSeries_sampling_monotone_witness :
    ValidInputs sampleInputs ∧
    ((compute ModelType.PKN sampleInputs).timeSeries.length = 50 ∧
      (∀ i : ℕ, i < 50 →
        ((compute ModelType.PKN sampleInputs).timeSeries.getD i ⟨0, 0, 0, 0⟩).time
          = sampleInputs.time / 50 * ((i : ℝ) + 1)) ∧
      List.Pairwise (fun a b : TimeStep => a.time < b.time ∧ a.length ≤ b.length)
        (compute ModelType.PKN sampleInputs).timeSeries) :=
  ⟨by norm_num [ValidInputs, sampleInputs],
    timeSeries_sampling_monotone ModelType.PKN sampleInputs
      (by norm_num [ValidInputs, sampleInputs])⟩

/-- C9: the profile generator returns 51 points at positions `i * L/50`,
`i = 0..50`, strictly ascending from position 0 to position `L`, with width
`w_max * (1 - x/L)^exponent` at each position `x`; the first point has width
`w_max` and the last has width 0.  The solvers pass exponent 0.25 (PKN) and
0.5 (KGD, Radial) together with the final extent and maximum width. -/
theorem profile_shape_and_wiring (L w_max e : ℝ) (hL : 0 < L) (he : 0 < e)
    (I : FracInputs) :
    (generateProfile L w_max e).length = 51 ∧
    (∀ i : ℕ, i < 51 → (generateProfile L w_max e).getD i ⟨0, 0⟩ =
      { position := L / 50 * (i : ℝ),
        width := w_max * (1 - (L / 50 * (i : ℝ)) / L) ^ e }) ∧
    List.Pairwise (fun a b : ProfilePoint => a.position < b.position)
      (generateProfile L w_max e) ∧
    ((generateProfile L w_max e).getD 0 ⟨0, 0⟩).position = 0 ∧
    ((generateProfile L w_max e).getD 0 ⟨0, 0⟩).width = w_max ∧
    ((generateProfile L w_max e).getD 50 ⟨0, 0⟩).position = L ∧
    ((generateProfile L w_max e).getD 50 ⟨0, 0⟩).width = 0 ∧
    (calculatePKN I).profile
      = generateProfile (solvePKN I I.time).L (solvePKN I I.time).w 0.25 ∧
    (calculateKGD I).profile
      = generateProfile (solveKGD I I.time).L (solveKGD I I.time).w 0.5 ∧
    (calculateRadial I).profile
      = generateProfile (solveRadial I I.time).L (solveRadial I I.time).w 0.5 := by
  have h50 : (50 : ℝ) ≠ 0 := by norm_num
  refine ⟨generateProfile_length L w_max e,
    fun i hi => generateProfile_getD L w_max e hi, ?_, ?_, ?_, ?_, ?_, rfl, rfl, rfl⟩
  · unfold generateProfile
    refine pairwise_map_range 51 _ (fun i j hij => ?_)
    have hstep : (0 : ℝ) < L / 50 := div_pos hL (by norm_num)
    have hij1 : (i : ℝ) < (j : ℝ) := by exact_mod_cast hij
    exact mul_lt_mul_of_pos_left hij1 hstep
  · rw [generateProfile_getD L w_max e (by norm_num)]
    norm_num
  · rw [generateProfile_getD L w_max e (by norm_num)]
    norm_num
  · rw [generateProfile_getD L w_max e (by norm_num)]
    show L / 50 * ((50 : ℕ) : ℝ) = L
    norm_num
  · rw [generateProfile_getD L w_max e (by norm_num)]
    show w_max * (1 - (L / 50 * ((50 : ℕ) : ℝ)) / L) ^ e = 0
    have hx : L / 50 * ((50 : ℕ) : ℝ) = L := by norm_num
    rw [hx, div_self hL.ne', sub_self, Real.zero_rpow he.ne', mul_zero]

/-- Witness for C9 at `L = 1`, `w_max = 1`, `e = 0.25`, with the spec's
illustrative scenario as the wiring input. -/
theorem profile_shape_and_wiring_witness :
    (0 : ℝ) < 1 ∧ (0 : ℝ) < 0.25 ∧
    ((generateProfile 1 1 0.25).length = 51 ∧
      (∀ i : ℕ, i < 51 → (generateProfile 1 1 0.25).getD i ⟨0, 0⟩ =
        { position := (1 : ℝ) / 50 * (i : ℝ),
          width := 1 * (1 - ((1 : ℝ) / 50 * (i : ℝ)) / 1) ^ (0.25 : ℝ) }) ∧
      List.Pairwise (fun a b : ProfilePoint => a.position < b.position)
        (generateProfile 1 1 0.25) ∧
      ((generateProfile 1 1 0.25).getD 0 ⟨0, 0⟩).position = 0 ∧
      ((generateProfile 1 1 0.25).getD 0 ⟨0, 0⟩).width = 1 ∧
      ((generateProfile 1 1 0.25).getD 50 ⟨0, 0⟩).position = 1 ∧
      ((generateProfile 1 1 0.25).getD 50 ⟨0, 0⟩).width = 0 ∧
      (calculatePKN sampleInputs).profile
        = generateProfile (solvePKN sampleInputs sampleInputs.time).L
            (solvePKN sampleInputs sampleInputs.time).w 0.25 ∧
      (calculateKGD sampleInputs).profile
        = generateProfile (solveKGD sampleInputs sampleInputs.time).L
            (solveKGD sampleInputs sampleInputs.time).w 0.5 ∧
      (calculateRadial sampleInputs).profile
        = generateProfile (solveRadial sampleInputs sampleInputs.time).L
            (solveRadial sampleInputs sampleInputs.time).w 0.5) :=
  ⟨by norm_num, by norm_num,
    profile_shape_and_wiring 1 1 0.25 (by norm_num) (by norm_num) sampleInputs⟩

/-- C10: for every input and each model, the last record of the time history
is taken at exactly the requested elapsed time, and its length, width and
pressure fields coincide with the result's headline `length`, `width_max`
and `p_net` fields. -/
theorem timeSeries_last_eq_headline (m : ModelType) (I : FracInputs) :
    (compute m I).timeSeries.getLast? =
      some { time := I.time, length := (compute m I).length,
             width := (compute m I).width_max, pressure := (compute m I).p_net } := by
  cases m with
  | PKN => exact generateHistory_getLast I.time (solvePKN I)
  | KGD => exact generateHistory_getLast I.time (solveKGD I)
  | RADIAL => exact generateHistory_getLast I.time (solveRadial I)

end
